import Mathlib

/-
Verification of the gas-pipeline simulation engine
(simulator/services/simulation_engine.py, simulator/views.py,
simulator/models.py), as a shallow embedding.

Conventions of the embedding:
  * Python floats are modelled as rationals; the stochastic draws
    (random.gauss, random.uniform) are explicit parameters.
  * Python max/min/abs are modelled by the executable ratMax/ratMin/ratAbs
    below; bridge lemmas relate them to the Mathlib operations.
  * Django status/command strings are kept as strings, exactly as the
    source compares them.
  * The per-step engine functions are transcribed branch for branch from
    the source; each definition cites the method it embeds.
-/

namespace GasSim

/-- Executable minimum on rationals, the Python builtin min. -/
def ratMin (a b : ℚ) : ℚ := if a ≤ b then a else b

/-- Executable maximum on rationals, the Python builtin max. -/
def ratMax (a b : ℚ) : ℚ := if a ≤ b then b else a

/-- Executable absolute value on rationals, the Python builtin abs. -/
def ratAbs (a : ℚ) : ℚ := if a < 0 then -a else a

theorem ratMin_eq_min (a b : ℚ) : ratMin a b = min a b := by
  unfold ratMin
  split_ifs with h
  · exact (min_eq_left h).symm
  · exact (min_eq_right (le_of_not_le h)).symm

theorem ratMax_eq_max (a b : ℚ) : ratMax a b = max a b := by
  unfold ratMax
  split_ifs with h
  · exact (max_eq_right h).symm
  · exact (max_eq_left (le_of_not_le h)).symm

theorem ratAbs_eq_abs (a : ℚ) : ratAbs a = |a| := by
  unfold ratAbs
  split_ifs with h
  · exact (abs_of_neg h).symm
  · exact (abs_of_nonneg (not_lt.mp h)).symm

/-- Clamp a rational into the interval from lo to hi, as the source
idiom max(lo, min(hi, x)). -/
def clampRat (lo hi x : ℚ) : ℚ := ratMax lo (ratMin hi x)

theorem clampRat_eq (lo hi x : ℚ) : clampRat lo hi x = max lo (min hi x) := by
  unfold clampRat
  rw [ratMax_eq_max, ratMin_eq_min]

theorem clampRat_le (lo hi x : ℚ) (h : lo ≤ hi) : clampRat lo hi x ≤ hi := by
  unfold clampRat ratMax ratMin
  split_ifs <;> linarith

theorem le_clampRat (lo hi x : ℚ) : lo ≤ clampRat lo hi x := by
  unfold clampRat ratMax ratMin
  split_ifs <;> linarith

/-! ## Valves — SimulationEngine._update_valves (simulation_engine.py lines 652-696) -/

/-- Valve record, from simulator/models.py class Valve: `position`
(0-100 percent open, default 50), `set_position` (sentinel -1 means no
manual override), `is_operational`, and an optional bound PLC. -/
structure Valve where
  position : ℚ
  set_position : ℚ
  is_operational : Bool
  deriving Repr, DecidableEq

/-- Per-valve inputs for one arbitration step: the entry of `plc_data`
for the bound PLC (`none` when `valve.plc` is NULL; `some outs` when a
PLC is bound, where `outs` is that PLC output dict, possibly empty), and
the uniform(-0.1, 0.1) draw used by the default-drift branch. -/
structure ValveStepInput where
  set_position : ℚ
  plcOut : Option (List (String × ℚ))
  drift : ℚ
  deriving Repr

/-- Resolved target position for one valve, transcribed from
`_update_valves`: manual override when `set_position >= 0`; else, with a
bound PLC, the output under key CONTROL_VALVE_POSITION, else under key
FLOW_CONTROL_VALVE, else the previous position is maintained; else (no
bound PLC) the small random drift is applied. -/
def resolveValveTarget (v : Valve) (plcOut : Option (List (String × ℚ))) (drift : ℚ) : ℚ :=
  if v.set_position ≥ 0 then
    v.set_position
  else
    match plcOut with
    | some outs =>
      match outs.lookup "CONTROL_VALVE_POSITION" with
      | some x => x
      | none =>
        match outs.lookup "FLOW_CONTROL_VALVE" with
        | some x => x
        | none => v.position
    | none => v.position + drift

/-- New stored position after one arbitration step of `_update_valves`:
the target is clamped to the interval from 0 to 100 and written back only
when the change exceeds the 0.1 hysteresis threshold. -/
def updateValvePosition (v : Valve) (plcOut : Option (List (String × ℚ))) (drift : ℚ) : ℚ :=
  if ratAbs (v.position - clampRat 0 100 (resolveValveTarget v plcOut drift)) > 1/10 then
    clampRat 0 100 (resolveValveTarget v plcOut drift)
  else
    v.position

/-- One engine step for a single valve: the queryset filters on
`is_operational=True`, so non-operational valves are left untouched;
`set_position` may have been changed externally between steps. -/
def valveStep (v : Valve) (i : ValveStepInput) : Valve :=
  let v2 : Valve := { v with set_position := i.set_position }
  if v2.is_operational then
    { v2 with position := updateValvePosition v2 i.plcOut i.drift }
  else
    v2

/-- A run of arbitrary length: fold the per-step valve update over a
list of per-step inputs. -/
def runValve (v : Valve) (inputs : List ValveStepInput) : Valve :=
  inputs.foldl valveStep v

theorem updateValvePosition_mem (v : Valve) (plcOut : Option (List (String × ℚ)))
    (drift : ℚ) (h0 : 0 ≤ v.position) (h1 : v.position ≤ 100) :
    0 ≤ updateValvePosition v plcOut drift ∧ updateValvePosition v plcOut drift ≤ 100 := by
  unfold updateValvePosition
  split_ifs
  · exact ⟨le_clampRat _ _ _, clampRat_le _ _ _ (by norm_num)⟩
  · exact ⟨h0, h1⟩

theorem valveStep_position_mem (v : Valve) (i : ValveStepInput)
    (h0 : 0 ≤ v.position) (h1 : v.position ≤ 100) :
    0 ≤ (valveStep v i).position ∧ (valveStep v i).position ≤ 100 := by
  unfold valveStep
  dsimp only
  split
  · exact updateValvePosition_mem _ _ _ h0 h1
  · exact ⟨h0, h1⟩

/-- C4 counterexample input: a valve under automatic control whose bound
PLC produced no recognized valve key (for example a SAFETY_MONITORING
PLC linked by the from-node heuristic of `_initialize_valves`). -/
def valveBoundNoKey : Valve := { position := 50, set_position := -1, is_operational := true }

/-- C4 (counterexample). The claim states that whenever `set_position < 0`
and the bound controller produced no recognized output key, the target is
`position + uniform(-0.1, 0.1)`. The code instead maintains the previous
position for a valve with a bound PLC: at position 50 with drift draw
0.05, the resolved target is 50, not 50.05. -/
theorem valve_bound_plc_no_key_holds_not_drift :
    resolveValveTarget valveBoundNoKey (some [("SAFETY_OK", 1)]) (1/20) = 50 ∧
    valveBoundNoKey.position + 1/20 ≠ 50 := by
  constructor
  · decide
  · norm_num [valveBoundNoKey]

/-- C4 (amended). Resolved-target precedence as the code implements it:
manual override when `set_position >= 0`; else with a bound PLC the
CONTROL_VALVE_POSITION output, else the FLOW_CONTROL_VALVE output, else
the previous position is held (no drift); the default uniform drift is
applied only when no PLC is bound. -/
theorem valve_target_precedence (v : Valve) (outs : List (String × ℚ)) (drift : ℚ) :
    (∀ plcOut, v.set_position ≥ 0 → resolveValveTarget v plcOut drift = v.set_position) ∧
    (v.set_position < 0 → ∀ x, outs.lookup "CONTROL_VALVE_POSITION" = some x →
      resolveValveTarget v (some outs) drift = x) ∧
    (v.set_position < 0 → outs.lookup "CONTROL_VALVE_POSITION" = none →
      ∀ x, outs.lookup "FLOW_CONTROL_VALVE" = some x →
      resolveValveTarget v (some outs) drift = x) ∧
    (v.set_position < 0 → outs.lookup "CONTROL_VALVE_POSITION" = none →
      outs.lookup "FLOW_CONTROL_VALVE" = none →
      resolveValveTarget v (some outs) drift = v.position) ∧
    (v.set_position < 0 → resolveValveTarget v none drift = v.position + drift) := by
  refine ⟨?_, ?_, ?_, ?_, ?_⟩
  · intro plcOut h
    simp only [resolveValveTarget, if_pos h]
  · intro h x hx
    simp only [resolveValveTarget, if_neg (not_le.mpr h), hx]
  · intro h h1 x hx
    simp only [resolveValveTarget, if_neg (not_le.mpr h), h1, hx]
  · intro h h1 h2
    simp only [resolveValveTarget, if_neg (not_le.mpr h), h1, h2]
  · intro h
    simp only [resolveValveTarget, if_neg (not_le.mpr h)]

/-- Witness for C4 amended theorem: the hold branch at a concrete valve. -/
theorem valve_target_precedence_witness :
    (-1 : ℚ) < 0 ∧
    resolveValveTarget valveBoundNoKey (some [("SAFETY_OK", 1)]) (1/20) = valveBoundNoKey.position := by
  refine ⟨by norm_num, ?_⟩
  exact (valve_target_precedence valveBoundNoKey [("SAFETY_OK", 1)] (1/20)).2.2.2.1
    (by norm_num [valveBoundNoKey]) (by rfl) (by rfl)

/-- C6: across a run of arbitrary length, after each arbitration step the
stored valve position lies between 0 and 100, provided it started there
(valves are initialized at position 50). -/
theorem valve_position_invariant_run (v : Valve) (inputs : List ValveStepInput)
    (h0 : 0 ≤ v.position) (h1 : v.position ≤ 100) :
    0 ≤ (runValve v inputs).position ∧ (runValve v inputs).position ≤ 100 := by
  induction inputs generalizing v with
  | nil => exact ⟨h0, h1⟩
  | cons i rest ih =>
    have h := valveStep_position_mem v i h0 h1
    simpa only [runValve, List.foldl] using ih (valveStep v i) h.1 h.2

/-- Witness for C6 at a concrete three-step run. -/
theorem valve_position_invariant_run_witness :
    (0 : ℚ) ≤ 50 ∧ (50 : ℚ) ≤ 100 ∧
    (0 ≤ (runValve { position := 50, set_position := -1, is_operational := true }
        [⟨-1, none, 1/20⟩, ⟨90, none, 0⟩, ⟨-1, some [("CONTROL_VALVE_POSITION", 250)], 0⟩]).position ∧
      (runValve { position := 50, set_position := -1, is_operational := true }
        [⟨-1, none, 1/20⟩, ⟨90, none, 0⟩, ⟨-1, some [("CONTROL_VALVE_POSITION", 250)], 0⟩]).position ≤ 100) := by
  refine ⟨by norm_num, by norm_num, ?_⟩
  exact valve_position_invariant_run _ _ (by norm_num) (by norm_num)

/-- C10: an operational valve under no manual override and with no bound
PLC keeps its stored position unchanged by a step: the drift draw has
magnitude at most 0.1, so after clamping the movement never exceeds the
0.1 hysteresis threshold and the write-back is skipped. -/
theorem unbound_valve_drift_no_writeback (v : Valve) (i : ValveStepInput)
    (hop : v.is_operational = true) (hsp : i.set_position < 0) (hplc : i.plcOut = none)
    (hd0 : -(1/10) ≤ i.drift) (hd1 : i.drift ≤ 1/10)
    (h0 : 0 ≤ v.position) (h1 : v.position ≤ 100) :
    (valveStep v i).position = v.position := by
  obtain ⟨p, sp, op⟩ := v
  obtain ⟨isp, iplc, idr⟩ := i
  dsimp only at hop hsp hplc hd0 hd1 h0 h1
  subst hop
  subst hplc
  have hno : ¬ (ratAbs (p - clampRat 0 100 (p + idr)) > 1/10) := by
    rw [ratAbs_eq_abs, clampRat_eq, not_lt, abs_le]
    rcases le_total (p + idr) 100 with hA | hA
    · rw [min_eq_right hA]
      rcases le_total 0 (p + idr) with hB | hB
      · rw [max_eq_right hB]
        constructor <;> linarith
      · rw [max_eq_left hB]
        constructor <;> linarith
    · rw [min_eq_left hA]
      rw [max_eq_right (by norm_num : (0:ℚ) ≤ 100)]
      constructor <;> linarith
  simp only [valveStep, updateValvePosition, resolveValveTarget, if_neg (not_le.mpr hsp)]
  simp only [if_neg hno, ite_self]

/-- Witness for C10 at a concrete valve and drift draw. -/
theorem unbound_valve_drift_no_writeback_witness :
    ((-1 : ℚ) < 0 ∧ -(1/10) ≤ (1/20 : ℚ) ∧ (1/20 : ℚ) ≤ 1/10 ∧
      (0 : ℚ) ≤ 50 ∧ (50 : ℚ) ≤ 100) ∧
    (valveStep { position := 50, set_position := -1, is_operational := true }
      ⟨-1, none, 1/20⟩).position = 50 := by
  refine ⟨by norm_num, ?_⟩
  exact unbound_valve_drift_no_writeback _ _ rfl (by norm_num) rfl
    (by norm_num) (by norm_num) (by norm_num) (by norm_num)

/-! ## Compressors — SimulationEngine._update_compressors (lines 698-762) and
PLCSimulator._compressor_management_logic (lines 105-139) -/

/-- Modelled from the spec: the Compressor record of the data model
(spec section 3). The engine imports `Compressor` from simulator.models,
but models.py does not define such a class; the fields follow the spec
and the field accesses made by the engine: `status` over OFF, STARTING,
RUNNING, STOPPING; current `speed` in RPM; sentinel-(-1) `set_speed`;
`set_command` over ON, OFF, AUTO; the static cap `max_speed`; and
whether a PLC is bound to the compressor. -/
structure Compressor where
  status : String
  speed : ℚ
  set_speed : ℚ
  set_command : String
  max_speed : ℚ
  hasPlc : Bool
  deriving Repr, DecidableEq

/-- Target resolution of `_update_compressors` (lines 704-722): manual
override when `set_command != AUTO`; else, with a bound PLC, target
status is ON exactly when the COMPRESSOR_COMMAND output equals ON, and
target speed is the COMPRESSOR_TARGET_SPEED output with default 0; else
OFF with speed 0. `cmdOut` and `spdOut` are the entries of the bound PLC
output dict (`none` when the key is absent). -/
def resolveCompTarget (c : Compressor) (cmdOut : Option String) (spdOut : Option ℚ) :
    String × ℚ :=
  if c.set_command ≠ "AUTO" then
    (c.set_command, if c.set_speed ≥ 0 then c.set_speed else 0)
  else if c.hasPlc then
    ((if cmdOut = some "ON" then "ON" else "OFF"), spdOut.getD 0)
  else
    ("OFF", 0)

/-- State machine of `_update_compressors` (lines 728-736), an elif
chain evaluated on the pre-ramp speed. -/
def compNextStatus (c : Compressor) (targetStatus : String) (targetSpeed : ℚ) : String :=
  if targetStatus = "ON" ∧ c.status = "OFF" then "STARTING"
  else if targetStatus = "OFF" ∧ c.status = "RUNNING" then "STOPPING"
  else if c.status = "STARTING" ∧ c.speed ≥ (9/10) * targetSpeed ∧ targetSpeed > 0 then "RUNNING"
  else if c.status = "STOPPING" ∧ c.speed ≤ (1/10) * c.max_speed then "OFF"
  else c.status

/-- Speed ramp of `_update_compressors` (lines 738-748): move by
copysign(1000 * time_step, gap) when the gap exceeds one step of ramp,
else snap to target; clamp to the interval from 0 to max_speed. The
source expression reads `simulation_run.time_step`, but `simulation_run`
is not a bound name in the scope of `_update_compressors`, so at runtime
Python raises NameError on this line (claim C7); the `time_step`
parameter stands for the run field the expression names. -/
def compNextSpeed (c : Compressor) (targetSpeed time_step : ℚ) : ℚ :=
  if ratAbs (targetSpeed - c.speed) > 1000 * time_step then
    ratMax 0 (ratMin c.max_speed
      (c.speed + (if targetSpeed - c.speed ≥ 0 then ratAbs (1000 * time_step)
                  else -(ratAbs (1000 * time_step)))))
  else
    ratMax 0 (ratMin c.max_speed targetSpeed)

/-- One engine step for a single compressor (`_update_compressors`):
resolve the target, advance the state machine, ramp and clamp the
speed, and write back only when the status changed or the speed moved
by more than the 100 RPM hysteresis. -/
def updateCompressor (c : Compressor) (cmdOut : Option String) (spdOut : Option ℚ)
    (time_step : ℚ) : Compressor :=
  if compNextStatus c (resolveCompTarget c cmdOut spdOut).1 (resolveCompTarget c cmdOut spdOut).2 ≠ c.status ∨
      ratAbs (compNextSpeed c (resolveCompTarget c cmdOut spdOut).2 time_step - c.speed) > 100 then
    { c with
      status := compNextStatus c (resolveCompTarget c cmdOut spdOut).1 (resolveCompTarget c cmdOut spdOut).2,
      speed := compNextSpeed c (resolveCompTarget c cmdOut spdOut).2 time_step }
  else
    c

theorem updateCompressor_status (c : Compressor) (cmdOut : Option String) (spdOut : Option ℚ)
    (ts : ℚ) :
    (updateCompressor c cmdOut spdOut ts).status =
      compNextStatus c (resolveCompTarget c cmdOut spdOut).1 (resolveCompTarget c cmdOut spdOut).2 := by
  unfold updateCompressor
  split_ifs with h
  · rfl
  · push_neg at h
    exact h.1.symm

theorem compNextSpeed_nonneg (c : Compressor) (t ts : ℚ) : 0 ≤ compNextSpeed c t ts := by
  unfold compNextSpeed ratMax ratMin
  split_ifs <;> linarith

theorem compNextSpeed_le_max (c : Compressor) (t ts : ℚ) (hm : 0 ≤ c.max_speed) :
    compNextSpeed c t ts ≤ c.max_speed := by
  unfold compNextSpeed ratMax ratMin
  split_ifs <;> linarith

theorem compNextStatus_change (c : Compressor) (t : String) (tsp : ℚ)
    (h : compNextStatus c t tsp ≠ c.status) :
    (c.status = "OFF" ∧ compNextStatus c t tsp = "STARTING" ∧ t = "ON") ∨
    (c.status = "STARTING" ∧ compNextStatus c t tsp = "RUNNING" ∧
      c.speed ≥ (9/10) * tsp ∧ tsp > 0) ∨
    (c.status = "RUNNING" ∧ compNextStatus c t tsp = "STOPPING" ∧ t = "OFF") ∨
    (c.status = "STOPPING" ∧ compNextStatus c t tsp = "OFF" ∧
      c.speed ≤ (1/10) * c.max_speed) := by
  unfold compNextStatus at h ⊢
  split_ifs at h ⊢ with h1 h2 h3 h4
  · exact Or.inl ⟨h1.2, rfl, h1.1⟩
  · exact Or.inr (Or.inr (Or.inl ⟨h2.2, rfl, h2.1⟩))
  · exact Or.inr (Or.inl ⟨h3.1, rfl, h3.2.1, h3.2.2⟩)
  · exact Or.inr (Or.inr (Or.inr ⟨h4.1, rfl, h4.2⟩))
  · exact absurd rfl h

/-- C5: per-step invariant of the compressor arbitration, for any
current state within bounds and any PLC outputs: the stored speed stays
in the interval from 0 to max_speed, and any status change is one of
the four state-machine edges with its guard, evaluated at the resolved
target and the pre-ramp speed; no other transition occurs. -/
theorem compressor_step_invariant (c : Compressor) (cmdOut : Option String)
    (spdOut : Option ℚ) (ts : ℚ)
    (hs0 : 0 ≤ c.speed) (hs1 : c.speed ≤ c.max_speed) (hm : 0 ≤ c.max_speed) :
    (0 ≤ (updateCompressor c cmdOut spdOut ts).speed ∧
      (updateCompressor c cmdOut spdOut ts).speed ≤ c.max_speed) ∧
    ((updateCompressor c cmdOut spdOut ts).status ≠ c.status →
      (c.status = "OFF" ∧ (updateCompressor c cmdOut spdOut ts).status = "STARTING" ∧
        (resolveCompTarget c cmdOut spdOut).1 = "ON") ∨
      (c.status = "STARTING" ∧ (updateCompressor c cmdOut spdOut ts).status = "RUNNING" ∧
        c.speed ≥ (9/10) * (resolveCompTarget c cmdOut spdOut).2 ∧
        (resolveCompTarget c cmdOut spdOut).2 > 0) ∨
      (c.status = "RUNNING" ∧ (updateCompressor c cmdOut spdOut ts).status = "STOPPING" ∧
        (resolveCompTarget c cmdOut spdOut).1 = "OFF") ∨
      (c.status = "STOPPING" ∧ (updateCompressor c cmdOut spdOut ts).status = "OFF" ∧
        c.speed ≤ (1/10) * c.max_speed)) := by
  have hst := updateCompressor_status c cmdOut spdOut ts
  constructor
  · unfold updateCompressor
    split_ifs with h
    · exact ⟨compNextSpeed_nonneg _ _ _, compNextSpeed_le_max _ _ _ hm⟩
    · exact ⟨hs0, hs1⟩
  · intro hch
    rw [hst] at hch ⊢
    exact compNextStatus_change c _ _ hch

/-- An OFF compressor in AUTO with a bound PLC, as initialized by
`_initialize_compressors` (speed 0, set_speed -1). -/
def compAutoOff : Compressor :=
  { status := "OFF", speed := 0, set_speed := -1, set_command := "AUTO",
    max_speed := 12000, hasPlc := true }

/-- A STARTING compressor near its target speed. -/
def compStarting : Compressor :=
  { status := "STARTING", speed := 9600, set_speed := -1, set_command := "AUTO",
    max_speed := 12000, hasPlc := true }

/-- Witness for C5 at a concrete compressor and step. -/
theorem compressor_step_invariant_witness :
    ((0:ℚ) ≤ compAutoOff.speed ∧ compAutoOff.speed ≤ compAutoOff.max_speed ∧
      (0:ℚ) ≤ compAutoOff.max_speed) ∧
    (0 ≤ (updateCompressor compAutoOff (some "ON") (some 10000) 1).speed ∧
      (updateCompressor compAutoOff (some "ON") (some 10000) 1).speed ≤ compAutoOff.max_speed) := by
  refine ⟨⟨?_, ?_, ?_⟩,
    (compressor_step_invariant compAutoOff (some "ON") (some 10000) 1 ?_ ?_ ?_).1⟩ <;>
    norm_num [compAutoOff]

/-- C7: evaluation of the compressor speed dynamics at the very inputs
on which the source raises NameError (`simulation_run` is unbound inside
`_update_compressors`): with time_step 1 and target 10000, an OFF
compressor commanded ON ramps from 0 to exactly 1000 RPM (1000 RPM per
second of simulated time scaled by time_step) and enters STARTING, and a
STARTING compressor at 9600 RPM snaps exactly to 10000 because the
remaining gap of 400 is below one step of ramp, entering RUNNING. -/
theorem compressor_ramp_at_failing_input :
    (updateCompressor compAutoOff (some "ON") (some 10000) 1).speed = 1000 ∧
    (updateCompressor compAutoOff (some "ON") (some 10000) 1).status = "STARTING" ∧
    (updateCompressor compStarting (some "ON") (some 10000) 1).speed = 10000 ∧
    (updateCompressor compStarting (some "ON") (some 10000) 1).status = "RUNNING" := by
  norm_num [updateCompressor, compNextStatus, compNextSpeed, resolveCompTarget,
    ratAbs, ratMax, ratMin, compAutoOff, compStarting]
  all_goals decide

/-- Pressure-threshold logic of
`PLCSimulator._compressor_management_logic` (lines 105-139) for a node
with an attached compressor: in AUTO, command ON with high target speed
below 45 bar, OFF above 55 bar, and inside the deadband the outputs echo
the current status and speed of the compressor; under a manual command
the outputs mirror `set_command` and `set_speed`. Returns the pair
(COMPRESSOR_COMMAND, COMPRESSOR_TARGET_SPEED). -/
def compressorManagementLogic (c : Compressor) (pressure : ℚ) : String × ℚ :=
  if c.set_command = "AUTO" then
    if pressure < 45 then ("ON", 10000)
    else if pressure > 55 then ("OFF", 0)
    else (c.status, c.speed)
  else
    (c.set_command, if c.set_speed ≥ 0 then c.set_speed else 0)

/-- Full per-step path for a compressor whose bound PLC is the
compressor-management PLC at its node: PLC scan, then arbitration fed
with the scan outputs. -/
def compressorAutoStep (c : Compressor) (pressure time_step : ℚ) : Compressor :=
  updateCompressor c (some (compressorManagementLogic c pressure).1)
    (some (compressorManagementLogic c pressure).2) time_step

/-- A RUNNING compressor in AUTO with a bound PLC. -/
def compRunning : Compressor :=
  { status := "RUNNING", speed := 5000, set_speed := -1, set_command := "AUTO",
    max_speed := 12000, hasPlc := true }

/-- C8 (counterexample): with pressure 50 bar strictly inside the
deadband, a RUNNING compressor in AUTO does not keep its status: the PLC
echoes the status string RUNNING as COMPRESSOR_COMMAND, arbitration maps
every command other than ON to target status OFF, and the state machine
takes the RUNNING to STOPPING edge. -/
theorem deadband_running_compressor_goes_stopping :
    (compressorAutoStep compRunning 50 1).status = "STOPPING" ∧
    compRunning.status = "RUNNING" ∧ compRunning.set_command = "AUTO" ∧
    (45 : ℚ) < 50 ∧ (50 : ℚ) < 55 := by
  decide

/-- C8 (amended): inside the deadband with `set_command` AUTO and a
bound compressor-management PLC, an OFF compressor keeps its status,
while a RUNNING compressor transitions to STOPPING, because the echoed
status is not the command ON and arbitration therefore resolves target
status OFF. -/
theorem deadband_hold_only_when_off (c : Compressor) (p ts : ℚ)
    (hauto : c.set_command = "AUTO") (hplc : c.hasPlc = true)
    (h45 : 45 < p) (h55 : p < 55) :
    (c.status = "OFF" → (compressorAutoStep c p ts).status = "OFF") ∧
    (c.status = "RUNNING" → (compressorAutoStep c p ts).status = "STOPPING") := by
  have hlogic : compressorManagementLogic c p = (c.status, c.speed) := by
    unfold compressorManagementLogic
    rw [if_pos hauto, if_neg (not_lt.mpr h45.le), if_neg (not_lt.mpr h55.le)]
  constructor
  · intro hoff
    have htgt : resolveCompTarget c (some (compressorManagementLogic c p).1)
        (some (compressorManagementLogic c p).2) = ("OFF", c.speed) := by
      rw [hlogic]
      dsimp only
      unfold resolveCompTarget
      rw [hoff, if_neg (not_not_intro hauto), if_pos hplc]
      rw [if_neg (fun h => absurd (Option.some.inj h) (by decide))]
      simp only [Option.getD_some]
    unfold compressorAutoStep
    rw [updateCompressor_status, htgt]
    dsimp only
    unfold compNextStatus
    rw [hoff]
    rw [if_neg (fun h => absurd h.1 (by decide)),
        if_neg (fun h => absurd h.2 (by decide)),
        if_neg (fun h => absurd h.1 (by decide)),
        if_neg (fun h => absurd h.1 (by decide))]
  · intro hrun
    have htgt : resolveCompTarget c (some (compressorManagementLogic c p).1)
        (some (compressorManagementLogic c p).2) = ("OFF", c.speed) := by
      rw [hlogic]
      dsimp only
      unfold resolveCompTarget
      rw [hrun, if_neg (not_not_intro hauto), if_pos hplc]
      rw [if_neg (fun h => absurd (Option.some.inj h) (by decide))]
      simp only [Option.getD_some]
    unfold compressorAutoStep
    rw [updateCompressor_status, htgt]
    dsimp only
    unfold compNextStatus
    rw [hrun]
    rw [if_neg (fun h => absurd h.1 (by decide)),
        if_pos (⟨rfl, rfl⟩ : ("OFF":String) = "OFF" ∧ ("RUNNING":String) = "RUNNING")]

/-- Witness for C8 amended theorem: the OFF hold branch at pressure 50. -/
theorem deadband_hold_only_when_off_witness :
    (compAutoOff.set_command = "AUTO" ∧ compAutoOff.hasPlc = true ∧
      (45:ℚ) < 50 ∧ (50:ℚ) < 55 ∧ compAutoOff.status = "OFF") ∧
    (compressorAutoStep compAutoOff 50 1).status = "OFF" := by
  refine ⟨⟨rfl, rfl, by norm_num, by norm_num, rfl⟩, ?_⟩
  exact (deadband_hold_only_when_off compAutoOff 50 1 rfl rfl
    (by norm_num) (by norm_num)).1 rfl

/-! ## Pressure-control PID — PLCSimulator (lines 18-83) and
SimulationEngine._execute_plcs (lines 635-650) -/

/-- Private state of a PLCSimulator instance: integral of error and the
last error, both set to 0 in `PLCSimulator.__init__` (lines 21-24). -/
structure PIDState where
  integral_error : ℚ
  last_error : ℚ
  deriving Repr, DecidableEq

/-- PID computation of `_pressure_control_logic` (lines 52-83): gains
kp=1.0, ki=0.1, kd=0.01 with the 0.1 delta-t convention; the suggested
valve position is the clamp of 50 + pid_output to the interval from 0
to 100. Returns the CONTROL_VALVE_POSITION output together with the
updated private state. -/
def pressureControlLogic (setpoint current : ℚ) (st : PIDState) : ℚ × PIDState :=
  let error := setpoint - current
  let integral := st.integral_error + error * (1/10)
  let derivative := (error - st.last_error) / (1/10)
  let pid := 1 * error + (1/10) * integral + (1/100) * derivative
  (clampRat 0 100 (50 + pid), { integral_error := integral, last_error := error })

/-- Scan at step n as `_execute_plcs` performs it: a new PLCSimulator is
constructed for the PLC on every scan (line 640), so each scan runs on
a freshly zeroed private state, whatever the step index. `pressures n`
is the sensor reading at step n. -/
def engineScanAtStep (setpoint : ℚ) (pressures : ℕ → ℚ) (n : ℕ) : ℚ × PIDState :=
  pressureControlLogic setpoint (pressures n) { integral_error := 0, last_error := 0 }

/-- Scan sequence written from the words of the spec, for comparison:
the private PID state persists from each step to the next within one
run, starting from the zero state. -/
def specPersistentScanAtStep (setpoint : ℚ) (pressures : ℕ → ℚ) : ℕ → ℚ × PIDState
  | 0 => pressureControlLogic setpoint (pressures 0) { integral_error := 0, last_error := 0 }
  | n+1 => pressureControlLogic setpoint (pressures (n+1))
      (specPersistentScanAtStep setpoint pressures n).2

/-- C2: the engine scan is identical at every step because the private
state is rebuilt at zero on each scan, contradicting persistence: with
setpoint 60 and constant reading 50 (error 10), the integral used at
step 1 is again 1 = 10 * 0.1 rather than the accumulated 2, the output
is 61.1 at both steps 0 and 1, while the spec-persistent scan would
output 60.2 at step 1. -/
theorem pid_state_reset_every_scan :
    (∀ n : ℕ, engineScanAtStep 60 (fun _ => 50) n = engineScanAtStep 60 (fun _ => 50) 0) ∧
    (engineScanAtStep 60 (fun _ => 50) 1).2.integral_error = 1 ∧
    (specPersistentScanAtStep 60 (fun _ => 50) 1).2.integral_error = 2 ∧
    (engineScanAtStep 60 (fun _ => 50) 1).1 = 611/10 ∧
    (specPersistentScanAtStep 60 (fun _ => 50) 1).1 = 301/5 ∧
    ((611 : ℚ)/10 ≠ 301/5) := by
  refine ⟨fun n => rfl, ?_, ?_, ?_, ?_, by norm_num⟩ <;>
    norm_num [engineScanAtStep, specPersistentScanAtStep, pressureControlLogic,
      clampRat, ratMax, ratMin]

/-! ## Run lifecycle — _simulation_loop finalization (lines 342-358),
stop_simulation (lines 288-293), views.stop_simulation (views.py lines
183-203), and start_simulation (lines 250-286; views.py lines 116-181) -/

/-- SimulationRun row as the lifecycle code touches it: `status` ranges
over CREATED, RUNNING, COMPLETED, FAILED, STOPPED (models.py lines
195-227), plus the `total_steps` counter. -/
structure SimRun where
  status : String
  total_steps : ℕ
  deriving Repr, DecidableEq

/-- Finalization block of `_simulation_loop` (lines 342-346): on any
non-exceptional loop exit - duration reached or the running flag
cleared by a stop request - the run status is set to COMPLETED and
`total_steps` to the loop counter, the number of fully executed steps. -/
def loopFinalize (r : SimRun) (steps : ℕ) : SimRun :=
  { r with status := "COMPLETED", total_steps := steps }

/-- Update performed by the stop view after the engine join (views.py
lines 190-191): rows whose status is still RUNNING are set to STOPPED. -/
def viewStopUpdate (r : SimRun) : SimRun :=
  if r.status = "RUNNING" then { r with status := "STOPPED" } else r

/-- Combined outcome of a mid-run stop request. `stop_simulation`
clears the shared flag and joins the loop thread with a 5 second
timeout; the loop observes the flag at the next step boundary and runs
its finalization. When the join returns after the finalization (the
usual case) the view update sees status COMPLETED and matches no row;
when the join times out first, the view marks the row STOPPED and the
finalization of the still-live thread later overwrites it. `steps` is
the loop counter when the flag was observed. -/
def stopRunOutcome (r : SimRun) (steps : ℕ) (joinedInTime : Bool) : SimRun :=
  if joinedInTime then viewStopUpdate (loopFinalize r steps)
  else loopFinalize (viewStopUpdate r) steps

/-- C1: whichever way the stop race resolves, a run cancelled mid-run
ends with status COMPLETED - never STOPPED - while `total_steps` does
equal the number of fully executed steps. This contradicts the claimed
final status STOPPED. -/
theorem stop_midrun_final_status_completed :
    ∀ (r : SimRun) (steps : ℕ) (b : Bool),
      (stopRunOutcome r steps b).status = "COMPLETED" ∧
      (stopRunOutcome r steps b).status ≠ "STOPPED" ∧
      (stopRunOutcome r steps b).total_steps = steps := by
  intro r steps b
  cases b <;>
    exact ⟨rfl, (by decide : ("COMPLETED" : String) ≠ "STOPPED"), rfl⟩

/-- Engine state relevant to the run lifecycle: the shared running
flag of the SimulationEngine singleton. -/
structure EngineState where
  running : Bool
  deriving Repr, DecidableEq

/-- Effect of `start_simulation(network_id, duration, time_step)` on
the run table: the method looks up the network (re-raising when it does
not exist), unconditionally creates a new RUNNING run row, spawns the
loop thread and sets the running flag. Neither the engine method nor
the start view (views.py lines 116-181) consults the running flag or
looks for an existing RUNNING row. Returns the new engine state, the
run table, and the created run; `none` models the network-missing
exception path. -/
def startSimulation (e : EngineState) (db : List SimRun) (networkExists : Bool) :
    EngineState × List SimRun × Option SimRun :=
  if networkExists then
    ({ running := true }, db ++ [{ status := "RUNNING", total_steps := 0 }],
      some { status := "RUNNING", total_steps := 0 })
  else
    (e, db, none)

/-- C3 (counterexample): a start request issued while the engine flag
is set and a RUNNING row exists is not rejected: the call returns a
created run and the table now holds two rows. -/
theorem start_while_running_not_rejected :
    (startSimulation ⟨true⟩ [⟨"RUNNING", 3⟩] true).2.2 ≠ none ∧
    (startSimulation ⟨true⟩ [⟨"RUNNING", 3⟩] true).2.1.length = 2 := by
  exact ⟨by decide, rfl⟩

/-- C3 (amended): starting while a run is RUNNING is accepted rather
than rejected: a fresh RUNNING run is appended and started, and the
start call itself leaves every pre-existing run row - status and step
counter included - in the table unchanged. -/
theorem start_while_running_appends_new_run (e : EngineState) (db : List SimRun) :
    (startSimulation e db true).2.2 = some { status := "RUNNING", total_steps := 0 } ∧
    (startSimulation e db true).2.1 = db ++ [{ status := "RUNNING", total_steps := 0 }] ∧
    ∀ r ∈ db, r ∈ (startSimulation e db true).2.1 := by
  refine ⟨rfl, rfl, ?_⟩
  intro r hr
  have h : (startSimulation e db true).2.1
      = db ++ [{ status := "RUNNING", total_steps := 0 }] := rfl
  rw [h]
  exact List.mem_append.mpr (Or.inl hr)

/-- Witness for C3 amended theorem at a one-row table. -/
theorem start_while_running_appends_new_run_witness :
    (⟨"RUNNING", 3⟩ : SimRun) ∈ [(⟨"RUNNING", 3⟩ : SimRun)] ∧
    (⟨"RUNNING", 3⟩ : SimRun) ∈ (startSimulation ⟨true⟩ [⟨"RUNNING", 3⟩] true).2.1 := by
  refine ⟨List.mem_singleton.mpr rfl, ?_⟩
  exact (start_while_running_appends_new_run ⟨true⟩ [⟨"RUNNING", 3⟩]).2.2 _
    (List.mem_singleton.mpr rfl)

/-! ## Sensors — SimulationEngine._update_sensors (lines 563-595) and
_initialize_sensors (lines 412-475) -/

/-- Node fields read by the sensor update. -/
structure SensorNode where
  networkId : ℕ
  current_pressure : ℚ
  gas_temperature : ℚ
  set_flow : ℚ
  deriving Repr, DecidableEq

/-- Pipe fields relevant to a pipe flow sensor. -/
structure SensorPipe where
  networkId : ℕ
  current_flow : ℚ
  deriving Repr, DecidableEq

/-- Sensor row (models.py lines 81-108): attached to a node or a pipe,
both nullable, with a type string and an active flag. -/
structure Sensor where
  sensor_id : String
  sensor_type : String
  node : Option SensorNode
  pipe : Option SensorPipe
  is_active : Bool
  current_value : ℚ
  deriving Repr, DecidableEq

/-- Queryset filter of `_update_sensors` (line 567), which iterates
Sensor.objects.filter(node__network=network, is_active=True): the inner
join on `node` drops every sensor whose node field is NULL - in
particular all pipe flow sensors created by `_initialize_sensors`
(lines 463-475), which have node NULL and pipe set. -/
def sensorInQuery (netId : ℕ) (s : Sensor) : Bool :=
  (match s.node with
   | some n => n.networkId == netId
   | none => false) && s.is_active

/-- New reading for one selected sensor (lines 569-592): the node field
plus the per-channel Gaussian draw, clamped non-negative for pressure
and flow channels; flow sensors on nodes read `set_flow`. Under the
query filter the node is always present, so the pipe flow branch of the
source - which reads the unbound name `pipe` and would raise NameError -
is unreachable and not represented. A sensor of any other type keeps
its current value. -/
def sensorValue (s : Sensor) (noise : ℚ) : ℚ :=
  if s.sensor_type = "pressure" then
    ratMax 0 ((match s.node with | some n => n.current_pressure | none => 50) + noise)
  else if s.sensor_type = "temperature" then
    (match s.node with | some n => n.gas_temperature | none => 20) + noise
  else if s.sensor_type = "flow" then
    ratMax 0 ((match s.node with | some n => n.set_flow | none => 100) + noise)
  else
    s.current_value

/-- Observation map returned by `_update_sensors`: one entry per sensor
passing the queryset filter, keyed by sensor id. -/
def updateSensors (netId : ℕ) (sensors : List Sensor) (noise : String → ℚ) :
    List (String × ℚ) :=
  (sensors.filter (sensorInQuery netId)).map
    (fun s => (s.sensor_id, sensorValue s (noise s.sensor_id)))

/-- A node of network 1. -/
def nodeOne : SensorNode :=
  { networkId := 1, current_pressure := 50, gas_temperature := 20, set_flow := 80 }

/-- A pipe of network 1. -/
def pipeOne : SensorPipe := { networkId := 1, current_flow := 7 }

/-- The pressure sensor at the node, as created by
`_initialize_sensors`. -/
def pressureSensorNode : Sensor :=
  { sensor_id := "pressure_node_1", sensor_type := "pressure",
    node := some nodeOne, pipe := none, is_active := true, current_value := 50 }

/-- The flow sensor on the pipe, as created by `_initialize_sensors`
(lines 463-475): node NULL, pipe set, active. -/
def flowSensorPipe : Sensor :=
  { sensor_id := "flow_pipe_1", sensor_type := "flow",
    node := none, pipe := some pipeOne, is_active := true, current_value := 0 }

/-- C9: the pipe flow sensor is a defined, active sensor of the
network, yet the observation map of the step contains no entry for it,
because the node join of the queryset excludes sensors whose node is
NULL; the node pressure sensor does appear, with the node pressure plus
noise (noise 0 here), clamped non-negative. -/
theorem pipe_flow_sensor_missing_from_observation :
    flowSensorPipe.is_active = true ∧
    (updateSensors 1 [pressureSensorNode, flowSensorPipe] (fun _ => 0)).lookup "flow_pipe_1"
      = none ∧
    (updateSensors 1 [pressureSensorNode, flowSensorPipe] (fun _ => 0)).lookup "pressure_node_1"
      = some 50 := by
  refine ⟨rfl, rfl, ?_⟩
  have h : (updateSensors 1 [pressureSensorNode, flowSensorPipe] (fun _ => 0)).lookup
      "pressure_node_1" = some (ratMax 0 ((50 : ℚ) + 0)) := rfl
  rw [h]
  norm_num [ratMax]

end GasSim
